import Mathlib

/-!
Verification development for the multi-model MCP server's routing and
escalation engine.  The definitions below are a shallow embedding of the
router module (`escalate`, `getProvider`, `detectMultimodal`, `routeRequest`)
and of the `get_second_opinion` handler of the router-based server variant.

Effectful boundaries are made explicit:
* the delegated classification call (`queryOpenAI` + JSON parse inside the
  `try` block of `routeRequest`) is modelled by a `ClassifierOutcome` input —
  `ok d` when the call returned text that parsed into a decision `d`,
  `err msg` when the call or the parse threw with message `msg` (both throw
  into the same `catch`);
* provider invocations (`queryOpenAI` / `queryGemini` behind `callModel`)
  are modelled by an oracle `invoke : String → Except String String` from a
  model identifier to the response text or the thrown error message;
* `handleCore` additionally logs the list of models actually sent to the
  provider gateway, so that the number of invocation attempts is observable.

Confidence values (JS floats in [0,1]) are modelled as rationals; numeric
string rendering is abstracted by `toString`.
-/

namespace McpMultiModel

inductive Stakes
  | low
  | medium
  | high
deriving DecidableEq

inductive Ambiguity
  | low
  | medium
  | high
deriving DecidableEq

inductive ContextSize
  | short
  | medium
  | long
deriving DecidableEq

inductive TaskType
  | classify
  | extract
  | summarize
  | write
  | code
  | plan
  | reason
  | other
deriving DecidableEq

/-- `RoutingSignals` record, mirroring the `signals` field of the router's
`RoutingDecision` interface. -/
structure RoutingSignals where
  multimodal : Bool
  stakes : Stakes
  ambiguity : Ambiguity
  context_size : ContextSize
  strict_output : Bool
  task_type : TaskType
deriving DecidableEq

/-- The `RoutingDecision` interface of the router module. -/
structure RoutingDecision where
  selected_model : String
  confidence : ℚ
  signals : RoutingSignals
  fallback_model : String
  reason : String
deriving DecidableEq

/-- The five-model catalog `VALID_MODELS` of the router module. -/
def VALID_MODELS : List String :=
  ["gemini-3-flash-preview", "gemini-3-pro-preview", "gpt-5-nano", "gpt-5-mini", "gpt-5.2"]

/-- `escalate` from the router module: nano → mini → 5.2, flash → pro,
everything else (including the two chain tops) → "gpt-5.2". -/
def escalate (model : String) : String :=
  if model = "gpt-5-nano" then "gpt-5-mini"
  else if model = "gpt-5-mini" then "gpt-5.2"
  else if model = "gemini-3-flash-preview" then "gemini-3-pro-preview"
  else "gpt-5.2"

inductive Provider
  | openai
  | gemini
deriving DecidableEq

/-- `getProvider` from the router module: `model.startsWith("gemini")`. -/
def getProvider (model : String) : Provider :=
  if "gemini".data.isPrefixOf model.data then Provider.gemini else Provider.openai

/-- Executable substring test: does `pat` occur as contiguous run inside `s`?
Models JS `String.prototype.includes`. -/
def subAux (pat : List Char) : List Char → Bool
  | [] => pat.isEmpty
  | c :: rest => pat.isPrefixOf (c :: rest) || subAux pat rest

/-- `s.includes pat` for strings. -/
def containsSub (s pat : String) : Bool :=
  subAux pat.data s.data

/-- The fixed multimodal keyword vocabulary (`signals` array inside
`detectMultimodal`). -/
def mmSignals : List String :=
  ["image", "picture", "photo", "screenshot", "diagram",
   "pdf", "document", "attachment",
   "audio", "sound", "recording", "voice",
   "video", "clip", "footage",
   "base64", "data:image", "data:audio"]

/-- The character list of `s.toLowerCase()`. -/
def lowerData (s : String) : List Char :=
  s.data.map Char.toLower

/-- `detectMultimodal` from the router module: keyword membership over the
lowercased concatenation of prompt, a space, and the (optional) context. -/
def detectMultimodal (prompt : String) (context : Option String) : Bool :=
  let fullText := lowerData (prompt ++ " " ++ context.getD "")
  mmSignals.any (fun s => subAux s.data fullText)

/-- Outcome of the delegated classification stage (the `queryOpenAI` call plus
JSON parse inside `routeRequest`'s `try`): `ok d` when a decision parsed,
`err msg` when either the transport call or `JSON.parse` threw. -/
inductive ClassifierOutcome
  | ok (d : RoutingDecision)
  | err (msg : String)

/-- Catalog validation step of `routeRequest`: an out-of-catalog selection is
replaced by "gpt-5-mini" with confidence forced to 0.5; nothing else changes. -/
def validateModel (d : RoutingDecision) : RoutingDecision :=
  if d.selected_model ∈ VALID_MODELS then d
  else { d with selected_model := "gpt-5-mini", confidence := mkRat 1 2 }

/-- Availability-enforcement step of `routeRequest`.  The provider is computed
once, before remapping, exactly as in the source. -/
def resolveAvailability (hasOpenAI hasGemini : Bool) (d : RoutingDecision) : RoutingDecision :=
  let provider := getProvider d.selected_model
  let d2 :=
    if provider = Provider.gemini ∧ hasGemini = false then
      { d with
          selected_model :=
            if d.selected_model = "gemini-3-pro-preview" then "gpt-5.2" else "gpt-5-mini",
          reason := d.reason ++ " (remapped: Gemini not available)" }
    else d
  if provider = Provider.openai ∧ hasOpenAI = false then
    { d2 with
        selected_model :=
          if d2.selected_model = "gpt-5.2" then "gemini-3-pro-preview"
          else "gemini-3-flash-preview",
        reason := d2.reason ++ " (remapped: OpenAI not available)" }
  else d2

/-- Confidence-based escalation step of `routeRequest`: below 0.65 the
selection is escalated once and a clause is appended to `reason`. -/
def applyConfidenceEscalation (d : RoutingDecision) : RoutingDecision :=
  if d.confidence < mkRat 65 100 then
    { d with
        selected_model := escalate d.selected_model,
        reason := d.reason ++ " (escalated: confidence " ++ toString d.confidence ++ ")" }
  else d

/-- Final fallback recomputation of `routeRequest`. -/
def setFallback (d : RoutingDecision) : RoutingDecision :=
  { d with fallback_model := escalate d.selected_model }

/-- The all-medium signal block of the router-failure fallback decision. -/
def defaultSignals (multimodal : Bool) : RoutingSignals :=
  { multimodal := multimodal, stakes := Stakes.medium, ambiguity := Ambiguity.medium,
    context_size := ContextSize.medium, strict_output := false, task_type := TaskType.other }

/-- The `catch` branch of `routeRequest`: simple heuristic fallback. -/
def heuristicFallback (multimodal hasGemini : Bool) (msg : String) : RoutingDecision :=
  let model := if multimodal && hasGemini then "gemini-3-flash-preview" else "gpt-5-mini"
  { selected_model := model, confidence := mkRat 1 2, signals := defaultSignals multimodal,
    fallback_model := escalate model,
    reason := "Router failed, using fallback: " ++ msg }

/-- `routeRequest` from the router module, with the delegated classification
outcome passed explicitly. -/
def routeRequest (outcome : ClassifierOutcome) (prompt : String) (context : Option String)
    (hasOpenAI hasGemini : Bool) : RoutingDecision :=
  let multimodal := detectMultimodal prompt context
  match outcome with
  | ClassifierOutcome.ok d =>
      setFallback (applyConfidenceEscalation (resolveAvailability hasOpenAI hasGemini (validateModel d)))
  | ClassifierOutcome.err msg => heuristicFallback multimodal hasGemini msg

/-- Server configuration (presence of the two provider credentials), as
observed by the handler via `config.openai?.apiKey` / `config.gemini?.apiKey`. -/
structure ModelConfig where
  openaiKey : Option String
  geminiKey : Option String

def Provider.str : Provider → String
  | Provider.openai => "openai"
  | Provider.gemini => "gemini"

def Stakes.str : Stakes → String
  | Stakes.low => "low"
  | Stakes.medium => "medium"
  | Stakes.high => "high"

def Ambiguity.str : Ambiguity → String
  | Ambiguity.low => "low"
  | Ambiguity.medium => "medium"
  | Ambiguity.high => "high"

def TaskType.str : TaskType → String
  | TaskType.classify => "classify"
  | TaskType.extract => "extract"
  | TaskType.summarize => "summarize"
  | TaskType.write => "write"
  | TaskType.code => "code"
  | TaskType.plan => "plan"
  | TaskType.reason => "reason"
  | TaskType.other => "other"

/-- A tool response: the texts of the content blocks and the `isError` flag. -/
structure ToolResponse where
  texts : List String
  isError : Bool
deriving DecidableEq

/-- `callModel` from the router-variant server, instrumented with the list of
models actually sent to a provider gateway (empty when the per-provider key
check throws before any call). -/
def callModelLogged (cfg : ModelConfig) (invoke : String → Except String String)
    (model : String) : Except String String × List String :=
  match getProvider model with
  | Provider.openai =>
      match cfg.openaiKey with
      | none => (Except.error "OpenAI API key not configured.", [])
      | some _ => (invoke model, [model])
  | Provider.gemini =>
      match cfg.geminiKey with
      | none => (Except.error "Gemini API key not configured.", [])
      | some _ => (invoke model, [model])

/-- `callModel` as seen by the caller (result only). -/
def callModel (cfg : ModelConfig) (invoke : String → Except String String)
    (model : String) : Except String String :=
  (callModelLogged cfg invoke model).1

/-- The routing-metadata content block built in Step 5 of the handler. -/
def mkRoutingText (model : String) (d : RoutingDecision) : String :=
  String.intercalate "\n"
    ["--- Routing ---",
     "Provider: " ++ (getProvider model).str,
     "Model:    " ++ model,
     "Task:     " ++ d.signals.task_type.str,
     "Stakes:   " ++ d.signals.stakes.str,
     "Ambiguity:" ++ d.signals.ambiguity.str,
     "Confidence:" ++ toString d.confidence,
     "Reason:   " ++ d.reason,
     "--- Response ---"]

/-- Successful handler result: routing metadata block plus response block. -/
def successResponse (model : String) (d : RoutingDecision) (response : String) : ToolResponse :=
  { texts := [mkRoutingText model d, response], isError := false }

/-- Structured error payload produced by the `CallToolRequest` wrapper when a
handler throws. -/
def errorResponse (msg : String) : ToolResponse :=
  { texts := ["Error: " ++ msg], isError := true }

/-- Steps 3–5 of the `get_second_opinion` handler: call the selected model, on
failure escalate once and retry, a second failure throws the combined fatal
error (caught by the `CallToolRequest` wrapper into an error payload). -/
def invokeFlow (cfg : ModelConfig) (invoke : String → Except String String)
    (decision : RoutingDecision) : ToolResponse × List String :=
  let first := callModelLogged cfg invoke decision.selected_model
  match first.1 with
  | Except.ok response => (successResponse decision.selected_model decision response, first.2)
  | Except.error e1 =>
      let escalated := escalate decision.selected_model
      let second := callModelLogged cfg invoke escalated
      match second.1 with
      | Except.ok response =>
          let d2 := { decision with
            reason := decision.reason ++ " (escalated from " ++ decision.selected_model
              ++ ": " ++ e1 ++ ")" }
          (successResponse escalated d2 response, first.2 ++ second.2)
      | Except.error e2 =>
          (errorResponse ("Both " ++ decision.selected_model ++ " and " ++ escalated
            ++ " failed. Original: " ++ e1 ++ ". Retry: " ++ e2), first.2 ++ second.2)

/-- The `get_second_opinion` handler of the router-based server variant
(wrapped by the `CallToolRequest` try/catch), instrumented with the list of
provider invocations performed.  `outcome` is the result of the delegated
classification stage and `invoke` is the provider-gateway oracle. -/
def handleCore (cfg : ModelConfig) (outcome : ClassifierOutcome)
    (invoke : String → Except String String) (prompt : String) (context : Option String) :
    ToolResponse × List String :=
  let hasOpenAI := cfg.openaiKey.isSome
  let hasGemini := cfg.geminiKey.isSome
  if hasOpenAI = false ∧ hasGemini = false then
    (errorResponse "No API keys configured. Set OPENAI_API_KEY and/or GEMINI_API_KEY.", [])
  else if hasOpenAI = false then
    (errorResponse "OpenAI API key required for the router (gpt-5-nano). Set OPENAI_API_KEY.", [])
  else
    invokeFlow cfg invoke (routeRequest outcome prompt context hasOpenAI hasGemini)

/-- The handler result as returned to the caller. -/
def handleGetSecondOpinion (cfg : ModelConfig) (outcome : ClassifierOutcome)
    (invoke : String → Except String String) (prompt : String) (context : Option String) :
    ToolResponse :=
  (handleCore cfg outcome invoke prompt context).1

/-! ## Concrete inputs used to exercise the definitions -/

/-- A classifier output choosing the Gemini heavy tier with confidence 0.4. -/
def geminiProLowConf : RoutingDecision :=
  { selected_model := "gemini-3-pro-preview", confidence := mkRat 2 5,
    signals := defaultSignals true, fallback_model := "gemini-3-flash-preview",
    reason := "multimodal reasoning" }

/-- A classifier output choosing the global ceiling with confidence 0.4. -/
def ceilingLowConf : RoutingDecision :=
  { selected_model := "gpt-5.2", confidence := mkRat 2 5,
    signals := defaultSignals false, fallback_model := "gpt-5.2",
    reason := "complex task" }

/-- A classifier output choosing the mid tier with confidence 0.4. -/
def miniLowConf : RoutingDecision :=
  { selected_model := "gpt-5-mini", confidence := mkRat 2 5,
    signals := defaultSignals false, fallback_model := "gpt-5.2",
    reason := "general task" }

/-- A classifier output naming a model outside the catalog, high confidence. -/
def outOfCatalog : RoutingDecision :=
  { selected_model := "gpt-9000", confidence := mkRat 9 10,
    signals := defaultSignals false, fallback_model := "gpt-5.2",
    reason := "classifier rationale" }

/-- A confident classifier output for the mid tier on a multimodal prompt. -/
def confidentMini : RoutingDecision :=
  { selected_model := "gpt-5-mini", confidence := mkRat 9 10,
    signals := defaultSignals true, fallback_model := "gpt-5.2",
    reason := "general text" }

/-- A gateway oracle that fails on the mid tier and succeeds elsewhere. -/
def invokeW : String → Except String String :=
  fun m => if m = "gpt-5-mini" then Except.error "boom" else Except.ok "advice"

/-! ## Helper lemmas -/

theorem routeRequest_ok (d : RoutingDecision) (prompt : String) (context : Option String)
    (a b : Bool) :
    routeRequest (ClassifierOutcome.ok d) prompt context a b
      = setFallback (applyConfidenceEscalation (resolveAvailability a b (validateModel d))) := rfl

theorem routeRequest_err (msg prompt : String) (context : Option String) (a b : Bool) :
    routeRequest (ClassifierOutcome.err msg) prompt context a b
      = heuristicFallback (detectMultimodal prompt context) b msg := rfl

/-- The executable substring scan agrees with list-infix containment. -/
theorem subAux_eq_true_iff (pat s : List Char) : subAux pat s = true ↔ pat <:+: s := by
  induction s with
  | nil =>
      simp [subAux, List.isEmpty_iff, List.infix_nil]
  | cons c rest ih =>
      simp [subAux, List.infix_cons_iff, ih]

theorem escalate_mem (m : String) : escalate m ∈ VALID_MODELS := by
  unfold escalate
  split_ifs <;> decide

theorem escalate_ne_of_ne_ceiling (m : String) (h : m ≠ "gpt-5.2") : escalate m ≠ m := by
  unfold escalate
  split_ifs with h1 h2 h3
  · subst h1; decide
  · subst h2; decide
  · subst h3; decide
  · exact fun hc => h hc.symm

theorem getProvider_escalate_openai (m : String) (h : getProvider m = Provider.openai) :
    getProvider (escalate m) = Provider.openai := by
  unfold escalate
  split_ifs with h1 h2 h3
  · decide
  · decide
  · subst h3; exact absurd h (by decide)
  · decide

theorem validateModel_mem (d : RoutingDecision) :
    (validateModel d).selected_model ∈ VALID_MODELS := by
  unfold validateModel
  split_ifs with h
  · exact h
  · simp [VALID_MODELS]

theorem resolveAvailability_mem (a b : Bool) (d : RoutingDecision)
    (h : d.selected_model ∈ VALID_MODELS) :
    (resolveAvailability a b d).selected_model ∈ VALID_MODELS := by
  by_cases h1 : getProvider d.selected_model = Provider.gemini ∧ b = false
  · by_cases h2 : getProvider d.selected_model = Provider.openai ∧ a = false
    · exact absurd (h2.1.symm.trans h1.1) (by decide)
    · simp only [resolveAvailability, if_pos h1, if_neg h2]
      split_ifs <;> simp [VALID_MODELS]
  · by_cases h2 : getProvider d.selected_model = Provider.openai ∧ a = false
    · simp only [resolveAvailability, if_neg h1, if_pos h2]
      split_ifs <;> simp [VALID_MODELS]
    · simpa only [resolveAvailability, if_neg h1, if_neg h2] using h

theorem resolveAvailability_openai_only (d : RoutingDecision) :
    getProvider (resolveAvailability true false d).selected_model = Provider.openai := by
  by_cases h1 : getProvider d.selected_model = Provider.gemini
  · simp [resolveAvailability, h1]
    split_ifs <;> rfl
  · have h1o : getProvider d.selected_model = Provider.openai := by
      rcases hp : getProvider d.selected_model with _ | _
      · rfl
      · exact absurd hp h1
    simp [resolveAvailability, h1o]

theorem applyConfidenceEscalation_mem (d : RoutingDecision)
    (h : d.selected_model ∈ VALID_MODELS) :
    (applyConfidenceEscalation d).selected_model ∈ VALID_MODELS := by
  unfold applyConfidenceEscalation
  split_ifs
  · exact escalate_mem d.selected_model
  · exact h

theorem applyConfidenceEscalation_openai (d : RoutingDecision)
    (h : getProvider d.selected_model = Provider.openai) :
    getProvider (applyConfidenceEscalation d).selected_model = Provider.openai := by
  unfold applyConfidenceEscalation
  split_ifs
  · exact getProvider_escalate_openai d.selected_model h
  · exact h

theorem setFallback_selected (d : RoutingDecision) :
    (setFallback d).selected_model = d.selected_model := rfl

/-- When both credentials are configured, `callModel` is exactly one provider
invocation, whichever provider serves the model. -/
theorem callModelLogged_keys (cfg : ModelConfig) (k g : String)
    (invoke : String → Except String String) (m : String)
    (hk : cfg.openaiKey = some k) (hg : cfg.geminiKey = some g) :
    callModelLogged cfg invoke m = (invoke m, [m]) := by
  unfold callModelLogged
  rcases getProvider m <;> simp [hk, hg]

/-- Specialisation of `callModelLogged_keys` to a literal two-key config. -/
theorem callModelLogged_some (k g : String) (invoke : String → Except String String)
    (m : String) :
    callModelLogged { openaiKey := some k, geminiKey := some g } invoke m = (invoke m, [m]) :=
  callModelLogged_keys { openaiKey := some k, geminiKey := some g } k g invoke m rfl rfl

/-- Each `callModel` performs at most one provider invocation. -/
theorem callModelLogged_len (cfg : ModelConfig) (invoke : String → Except String String)
    (m : String) : (callModelLogged cfg invoke m).2.length ≤ 1 := by
  unfold callModelLogged
  rcases getProvider m
  · rcases cfg.openaiKey <;> simp
  · rcases cfg.geminiKey <;> simp

/-- The invocation flow performs at most two provider invocations. -/
theorem invokeFlow_attempts_le (cfg : ModelConfig) (invoke : String → Except String String)
    (d : RoutingDecision) : (invokeFlow cfg invoke d).2.length ≤ 2 := by
  unfold invokeFlow
  have hb1 := callModelLogged_len cfg invoke d.selected_model
  have hb2 := callModelLogged_len cfg invoke (escalate d.selected_model)
  rcases h1 : (callModelLogged cfg invoke d.selected_model).1 with e1 | r
  · rcases h2 : (callModelLogged cfg invoke (escalate d.selected_model)).1 with e2 | r2 <;>
    · simp [h1, h2]
      omega
  · simp [h1]
    omega

/-- The whole handler performs at most two provider invocations. -/
theorem handleCore_attempts_le (cfg : ModelConfig) (outcome : ClassifierOutcome)
    (invoke : String → Except String String) (prompt : String) (context : Option String) :
    (handleCore cfg outcome invoke prompt context).2.length ≤ 2 := by
  unfold handleCore
  dsimp only
  split_ifs
  · simp
  · simp
  · exact invokeFlow_attempts_le cfg invoke _

/-- With the OpenAI credential present the handler's guards pass and it runs
the invocation flow on the routed decision. -/
theorem handleCore_guards_pass (cfg : ModelConfig) (k : String)
    (outcome : ClassifierOutcome) (invoke : String → Except String String)
    (prompt : String) (context : Option String) (hk : cfg.openaiKey = some k) :
    handleCore cfg outcome invoke prompt context
      = invokeFlow cfg invoke (routeRequest outcome prompt context true cfg.geminiKey.isSome) := by
  unfold handleCore
  rw [hk]
  dsimp only
  simp


/-! ## Claim theorems -/

/-- C2: `escalate` is a pure total function over the fixed five-model catalog
forming the two chains gpt-5-nano → gpt-5-mini → gpt-5.2 and
gemini-3-flash-preview → gemini-3-pro-preview; from any catalog member the
global ceiling "gpt-5.2" is reached within at most 2 applications, the ceiling
is a fixed point, and escalating from the top of the multimodal chain crosses
to "gpt-5.2". -/
theorem escalate_chain_spec :
    (∀ m ∈ VALID_MODELS, escalate (escalate m) = "gpt-5.2")
    ∧ escalate "gpt-5-nano" = "gpt-5-mini"
    ∧ escalate "gpt-5-mini" = "gpt-5.2"
    ∧ escalate "gemini-3-flash-preview" = "gemini-3-pro-preview"
    ∧ escalate "gemini-3-pro-preview" = "gpt-5.2"
    ∧ escalate "gpt-5.2" = "gpt-5.2" := by
  refine ⟨?_, by decide, by decide, by decide, by decide, by decide⟩
  decide

/-- Witness for C2 at the concrete catalog member "gpt-5-nano". -/
theorem escalate_chain_spec_witness :
    "gpt-5-nano" ∈ VALID_MODELS ∧ escalate (escalate "gpt-5-nano") = "gpt-5.2" :=
  ⟨by decide, escalate_chain_spec.1 "gpt-5-nano" (by decide)⟩

/-- C1 counterexample: with only Gemini available (hasOpenAI = false,
hasGemini = true) and the classifier confidently-low on the Gemini heavy tier,
the confidence escalation crosses to "gpt-5.2", whose provider is OpenAI —
the final provider is NOT the sole available provider. -/
theorem routing_availability_cex :
    (routeRequest (ClassifierOutcome.ok geminiProLowConf) "p" none false true).selected_model
      = "gpt-5.2"
    ∧ getProvider
        (routeRequest (ClassifierOutcome.ok geminiProLowConf) "p" none false true).selected_model
      = Provider.openai := by
  decide

/-- C1 (amended): the final selected model always belongs to the catalog, and
when only OpenAI is available the final provider is OpenAI; in the
Gemini-only direction the guarantee fails (see the counterexample), because
low-confidence escalation from the Gemini ceiling and the non-multimodal
heuristic fallback both cross to OpenAI models. -/
theorem routeRequest_catalog_openai_only (outcome : ClassifierOutcome) (prompt : String)
    (context : Option String) (hasOpenAI hasGemini : Bool) :
    (routeRequest outcome prompt context hasOpenAI hasGemini).selected_model ∈ VALID_MODELS
    ∧ (hasOpenAI = true → hasGemini = false →
        getProvider (routeRequest outcome prompt context hasOpenAI hasGemini).selected_model
          = Provider.openai) := by
  constructor
  · rcases outcome with d | msg
    · rw [routeRequest_ok, setFallback_selected]
      exact applyConfidenceEscalation_mem _
        (resolveAvailability_mem _ _ _ (validateModel_mem d))
    · rw [routeRequest_err]
      unfold heuristicFallback
      split_ifs <;> simp [VALID_MODELS]
  · intro ho hg
    subst ho
    subst hg
    rcases outcome with d | msg
    · rw [routeRequest_ok, setFallback_selected]
      exact applyConfidenceEscalation_openai _ (resolveAvailability_openai_only _)
    · rw [routeRequest_err]
      unfold heuristicFallback
      simp
      decide

/-- Witness for C1 (amended) at concrete availability flags. -/
theorem routeRequest_catalog_openai_only_witness :
    getProvider (routeRequest (ClassifierOutcome.err "down") "p" none true false).selected_model
      = Provider.openai :=
  (routeRequest_catalog_openai_only (ClassifierOutcome.err "down") "p" none true false).2 rfl rfl

/-- C3 counterexample: the classifier resolves to the global ceiling "gpt-5.2"
with confidence 0.4 < 0.65, yet the final selected model EQUALS the
availability-resolved raw choice (escalation at the ceiling is a no-op), so
"the final selectedModel differs from the raw choice" fails. -/
theorem confidence_escalation_cex :
    (resolveAvailability true true (validateModel ceilingLowConf)).confidence < mkRat 65 100
    ∧ (routeRequest (ClassifierOutcome.ok ceilingLowConf) "p" none true true).selected_model
        = (resolveAvailability true true (validateModel ceilingLowConf)).selected_model := by
  decide

/-- C3 (amended): when the availability-resolved decision has confidence below
0.65, the final selection equals `escalate` of the resolved choice — which
differs from it whenever the resolved choice is not the global ceiling
"gpt-5.2" — an escalation clause is appended to `reason`, and
`fallback_model` is recomputed as `escalate` of the new selection. -/
theorem lowConfidence_escalates (d : RoutingDecision) (prompt : String)
    (context : Option String) (a b : Bool)
    (hc : (resolveAvailability a b (validateModel d)).confidence < mkRat 65 100) :
    let r := resolveAvailability a b (validateModel d)
    let final := routeRequest (ClassifierOutcome.ok d) prompt context a b
    final.selected_model = escalate r.selected_model
    ∧ (r.selected_model ≠ "gpt-5.2" → final.selected_model ≠ r.selected_model)
    ∧ final.reason = r.reason ++ " (escalated: confidence " ++ toString r.confidence ++ ")"
    ∧ final.fallback_model = escalate final.selected_model := by
  intro r final
  have h1 : final = setFallback (applyConfidenceEscalation r) := routeRequest_ok d prompt context a b
  rw [h1]
  unfold applyConfidenceEscalation
  rw [if_pos hc]
  exact ⟨rfl, fun hne => escalate_ne_of_ne_ceiling _ hne, rfl, rfl⟩

/-- Witness for C3 (amended) at a concrete mid-tier, low-confidence decision. -/
theorem lowConfidence_escalates_witness :
    (routeRequest (ClassifierOutcome.ok miniLowConf) "p" none true true).selected_model
      = escalate (resolveAvailability true true (validateModel miniLowConf)).selected_model :=
  (lowConfidence_escalates miniLowConf "p" none true true (by decide)).1

/-- C6: if the delegated classification call throws, `routeRequest` returns the
heuristic fallback decision: the Gemini light tier when multimodal content is
detected and Gemini is available, otherwise "gpt-5-mini"; confidence 0.5;
`reason` marks the router failure; `fallback_model` is the escalation of the
selection. -/
theorem routerFailure_fallback (msg prompt : String) (context : Option String) (a b : Bool) :
    (routeRequest (ClassifierOutcome.err msg) prompt context a b).selected_model
        = (if detectMultimodal prompt context && b then "gemini-3-flash-preview" else "gpt-5-mini")
    ∧ (routeRequest (ClassifierOutcome.err msg) prompt context a b).confidence = mkRat 1 2
    ∧ (routeRequest (ClassifierOutcome.err msg) prompt context a b).reason
        = "Router failed, using fallback: " ++ msg
    ∧ (routeRequest (ClassifierOutcome.err msg) prompt context a b).fallback_model
        = escalate (routeRequest (ClassifierOutcome.err msg) prompt context a b).selected_model
    ∧ (routeRequest (ClassifierOutcome.err msg) prompt context a b).signals
        = defaultSignals (detectMultimodal prompt context) := by
  exact ⟨rfl, rfl, rfl, rfl, rfl⟩

/-- C7 counterexample: an out-of-catalog classifier choice (both providers
available) ends with final selected model "gpt-5.2" — not the mid tier — and
the final reason never contains "unknown model downgraded". -/
theorem unknown_model_cex :
    (routeRequest (ClassifierOutcome.ok outOfCatalog) "p" none true true).selected_model
      = "gpt-5.2"
    ∧ containsSub (routeRequest (ClassifierOutcome.ok outOfCatalog) "p" none true true).reason
        "unknown model downgraded" = false := by
  decide

/-- C7 (amended): an out-of-catalog choice is locally defaulted at the
validation step — selection replaced by the mid tier "gpt-5-mini" with
confidence forced to 0.5 and `reason` left unchanged (no "unknown model
downgraded" marker exists) — after which the forced 0.5 confidence triggers
the standard escalation, so with both providers available the final selected
model is "gpt-5.2" with the escalation clause appended.  (A JSON parse
failure instead throws into the router-failure heuristic fallback.) -/
theorem unknown_model_defaulted (d : RoutingDecision) (prompt : String)
    (context : Option String) (h : d.selected_model ∉ VALID_MODELS) :
    validateModel d = { d with selected_model := "gpt-5-mini", confidence := mkRat 1 2 }
    ∧ (validateModel d).reason = d.reason
    ∧ (routeRequest (ClassifierOutcome.ok d) prompt context true true).selected_model = "gpt-5.2"
    ∧ (routeRequest (ClassifierOutcome.ok d) prompt context true true).confidence = mkRat 1 2
    ∧ (routeRequest (ClassifierOutcome.ok d) prompt context true true).reason
        = d.reason ++ " (escalated: confidence " ++ toString (mkRat 1 2) ++ ")" := by
  have hv : validateModel d = { d with selected_model := "gpt-5-mini", confidence := mkRat 1 2 } := by
    unfold validateModel
    rw [if_neg h]
  have hr : resolveAvailability true true (validateModel d) = validateModel d := by
    rw [hv]
    simp [resolveAvailability]
  have hlt : mkRat 1 2 < mkRat 65 100 := by decide
  refine ⟨hv, by rw [hv], ?_, ?_, ?_⟩ <;>
  · rw [routeRequest_ok, hr, hv]
    simp [applyConfidenceEscalation, setFallback, hlt, escalate]

/-- Witness for C7 (amended) at a concrete out-of-catalog decision. -/
theorem unknown_model_defaulted_witness :
    (routeRequest (ClassifierOutcome.ok outOfCatalog) "q" none true true).confidence
      = mkRat 1 2 :=
  (unknown_model_defaulted outOfCatalog "q" none (by decide)).2.2.2.1

/-- C8 counterexample: on a prompt containing "screenshot" with both providers
available, multimodality is detected, yet a confident classifier choice of
"gpt-5-mini" is kept — the decision is NOT routed to the Gemini light tier.
The code only biases the delegated classifier via a prompt hint; it does not
enforce the multimodal routing rule. -/
theorem screenshot_routing_cex :
    detectMultimodal "please analyze this screenshot" none = true
    ∧ (routeRequest (ClassifierOutcome.ok confidentMini)
        "please analyze this screenshot" none true true).selected_model = "gpt-5-mini" := by
  decide

/-- C8 (amended): multimodality detection returns true exactly when some member
of the fixed keyword vocabulary occurs inside the lowercased concatenation
`prompt ++ " " ++ context`; a prompt containing "screenshot" yields
`multimodal = true`; and when the delegated classification call fails (the
locally-decided path) a "screenshot" prompt with both providers available is
routed to the Gemini light tier with `multimodal = true`.  For a successful
classification the routing follows the classifier output instead (see the
counterexample). -/
theorem multimodal_detection_spec :
    (∀ (prompt : String) (context : Option String),
      detectMultimodal prompt context = true
        ↔ ∃ kw ∈ mmSignals, kw.data <:+: lowerData (prompt ++ " " ++ context.getD ""))
    ∧ detectMultimodal "please analyze this screenshot" none = true
    ∧ (∀ msg : String,
        (routeRequest (ClassifierOutcome.err msg)
            "please analyze this screenshot" none true true).selected_model
          = "gemini-3-flash-preview"
        ∧ (routeRequest (ClassifierOutcome.err msg)
            "please analyze this screenshot" none true true).signals.multimodal = true) := by
  refine ⟨?_, by decide, ?_⟩
  · intro prompt context
    unfold detectMultimodal
    simp only [List.any_eq_true, subAux_eq_true_iff]
  · intro msg
    have hd : detectMultimodal "please analyze this screenshot" none = true := by decide
    rw [routeRequest_err]
    unfold heuristicFallback
    rw [hd]
    exact ⟨rfl, rfl⟩

/-- Witness for C8 (amended): the detection characterisation evaluated at a
concrete prompt, via the keyword "pdf". -/
theorem multimodal_detection_spec_witness :
    detectMultimodal "summarize this PDF" none = true :=
  (multimodal_detection_spec.1 "summarize this PDF" none).mpr
    ⟨"pdf", by decide, by decide⟩

/-- C9 counterexample: with no provider configured the server still serves the
request — the handler returns a structured error payload (`isError = true`)
for it — rather than the process having been terminated before any request is
served. -/
theorem no_provider_terminates_cex :
    handleGetSecondOpinion { openaiKey := none, geminiKey := none }
        (ClassifierOutcome.err "x") (fun _ => Except.error "never") "p" none
      = errorResponse "No API keys configured. Set OPENAI_API_KEY and/or GEMINI_API_KEY."
    ∧ (handleGetSecondOpinion { openaiKey := none, geminiKey := none }
        (ClassifierOutcome.err "x") (fun _ => Except.error "never") "p" none).isError = true := by
  decide

/-- C9 (amended): when no provider is configured, every request is rejected
immediately with the structured no-keys error payload, before any
classification, routing or provider invocation (the result is independent of
the classifier outcome and the gateway oracle, and the invocation log is
empty), and it is not retried; the process is not terminated — requests are
still served this payload. -/
theorem no_provider_immediate_error (cfg : ModelConfig) (outcome : ClassifierOutcome)
    (invoke : String → Except String String) (prompt : String) (context : Option String)
    (ho : cfg.openaiKey = none) (hg : cfg.geminiKey = none) :
    handleCore cfg outcome invoke prompt context
      = (errorResponse "No API keys configured. Set OPENAI_API_KEY and/or GEMINI_API_KEY.", []) := by
  unfold handleCore
  rw [ho, hg]
  simp

/-- Witness for C9 (amended) at a concrete empty configuration. -/
theorem no_provider_immediate_error_witness :
    handleCore { openaiKey := none, geminiKey := none } (ClassifierOutcome.err "x")
        (fun _ => Except.ok "text") "p" (some "c")
      = (errorResponse "No API keys configured. Set OPENAI_API_KEY and/or GEMINI_API_KEY.", []) :=
  no_provider_immediate_error { openaiKey := none, geminiKey := none }
    (ClassifierOutcome.err "x") (fun _ => Except.ok "text") "p" (some "c") rfl rfl

/-- C10: with a Gemini credential but no OpenAI credential, the handler
returns the router-key error payload before any classification, routing or
provider invocation: the result is independent of the classifier outcome and
the gateway oracle, and the invocation log is empty. -/
theorem gemini_only_router_error (g : String) (outcome : ClassifierOutcome)
    (invoke : String → Except String String) (prompt : String) (context : Option String) :
    handleCore { openaiKey := none, geminiKey := some g } outcome invoke prompt context
      = (errorResponse "OpenAI API key required for the router (gpt-5-nano). Set OPENAI_API_KEY.",
         []) := by
  unfold handleCore
  simp

/-- C4: with both credentials configured, if invoking the selected model fails
with `e1` and the escalated retry fails with `e2`, the caller receives a
single fatal error payload naming both attempted models and containing both
messages; moreover every request performs at most two provider invocations
(escalation-and-retry is applied at most once). -/
theorem invocation_double_failure_fatal :
    (∀ (k g : String) (outcome : ClassifierOutcome)
        (invoke : String → Except String String) (prompt : String)
        (context : Option String) (e1 e2 : String),
      invoke (routeRequest outcome prompt context true true).selected_model
          = Except.error e1 →
      invoke (escalate (routeRequest outcome prompt context true true).selected_model)
          = Except.error e2 →
      handleGetSecondOpinion { openaiKey := some k, geminiKey := some g }
          outcome invoke prompt context
        = errorResponse ("Both "
            ++ (routeRequest outcome prompt context true true).selected_model
            ++ " and "
            ++ escalate (routeRequest outcome prompt context true true).selected_model
            ++ " failed. Original: " ++ e1 ++ ". Retry: " ++ e2))
    ∧ (∀ (cfg : ModelConfig) (outcome : ClassifierOutcome)
        (invoke : String → Except String String) (prompt : String)
        (context : Option String),
        (handleCore cfg outcome invoke prompt context).2.length ≤ 2) := by
  constructor
  · intro k g outcome invoke prompt context e1 e2 h1 h2
    unfold handleGetSecondOpinion
    rw [handleCore_guards_pass { openaiKey := some k, geminiKey := some g } k outcome invoke
        prompt context rfl]
    simp only [Option.isSome_some, invokeFlow, callModelLogged_some, h1, h2]
  · intro cfg outcome invoke prompt context
    exact handleCore_attempts_le cfg outcome invoke prompt context

/-- Witness for C4 at a concrete request whose gateway always fails. -/
theorem invocation_double_failure_fatal_witness :
    handleGetSecondOpinion { openaiKey := some "k1", geminiKey := some "g1" }
        (ClassifierOutcome.err "down") (fun _ => Except.error "boom") "p" none
      = errorResponse "Both gpt-5-mini and gpt-5.2 failed. Original: boom. Retry: boom" := by
  have h := invocation_double_failure_fatal.1 "k1" "g1" (ClassifierOutcome.err "down")
    (fun _ => Except.error "boom") "p" none "boom" "boom" rfl rfl
  exact h.trans (by decide)

/-- C5: with both credentials configured, if invoking the selected model fails
with `e1` but the escalated retry succeeds, the response reports the escalated
model as the one actually used (it is the model of the routing-metadata
block), the decision reason records the escalation, and exactly the two
models were invoked. -/
theorem invocation_retry_uses_escalated (k g : String) (outcome : ClassifierOutcome)
    (invoke : String → Except String String) (prompt : String) (context : Option String)
    (e1 resp : String)
    (h1 : invoke (routeRequest outcome prompt context true true).selected_model
        = Except.error e1)
    (h2 : invoke (escalate (routeRequest outcome prompt context true true).selected_model)
        = Except.ok resp) :
    handleCore { openaiKey := some k, geminiKey := some g } outcome invoke prompt context
      = (successResponse
          (escalate (routeRequest outcome prompt context true true).selected_model)
          { routeRequest outcome prompt context true true with
              reason := (routeRequest outcome prompt context true true).reason
                ++ " (escalated from "
                ++ (routeRequest outcome prompt context true true).selected_model
                ++ ": " ++ e1 ++ ")" }
          resp,
        [(routeRequest outcome prompt context true true).selected_model,
         escalate (routeRequest outcome prompt context true true).selected_model]) := by
  rw [handleCore_guards_pass { openaiKey := some k, geminiKey := some g } k outcome invoke
      prompt context rfl]
  simp only [Option.isSome_some, invokeFlow, callModelLogged_some, h1, h2]
  rfl

/-- Witness for C5: the gateway fails on the routed "gpt-5-mini" and succeeds
on the escalated "gpt-5.2"; the reported model is the escalated one. -/
theorem invocation_retry_uses_escalated_witness :
    handleCore { openaiKey := some "k1", geminiKey := some "g1" }
        (ClassifierOutcome.err "down") invokeW "p" none
      = (successResponse "gpt-5.2"
          { routeRequest (ClassifierOutcome.err "down") "p" none true true with
              reason := (routeRequest (ClassifierOutcome.err "down") "p" none true true).reason
                ++ " (escalated from gpt-5-mini: boom)" }
          "advice",
        ["gpt-5-mini", "gpt-5.2"]) := by
  have h := invocation_retry_uses_escalated "k1" "g1" (ClassifierOutcome.err "down")
    invokeW "p" none "boom" "advice" rfl rfl
  exact h.trans rfl

end McpMultiModel
